import Mathlib

/-!
Shallow embedding of the ciconia tunnel runtime
(src/src-tauri/src/server/{actor,ssh,model,manager,remote_cmd}.rs and
src/src-tauri/src/database/entity/tunnel_config.rs), together with
theorems settling the specification claims about it.

Modelling conventions:
  * Rust machine integers are modelled as Nat; the one place where wrapping
    matters (the AtomicU64 traffic counter, model.rs TrafficCounter) uses an
    explicit mod 2^64.  Durations are Nat (milliseconds for ping latencies,
    seconds for the remote-exec timeouts, matching the units of the constants
    in the source).
  * Fallible Rust code returning anyhow::Result is modelled with
    Except String; the String is the message that e.to_string() would
    produce (anyhow Display shows the outermost context message).
  * The asynchronous actor is modelled as a sequential transition function
    over an explicit state; the environment (SSH connect outcome, the remote
    channel messages of an exec call, the TcpListener bind outcome) is a
    parameter of the Start command, and the events processed by the spawned
    metrics task (ssh.rs watch channel) and the select branch of
    TunnelActor::run are explicit inputs.
-/

/-! ### Data model (model.rs, database/entity/tunnel_config.rs) -/

/-- Row type of tunnels_v2 (database/entity/tunnel_config.rs, struct Model);
`u16` fields widened to Nat. -/
structure TunnelModel where
  id : String
  name : String
  mode : String
  ssh_host : String
  ssh_port : Nat
  ssh_username : String
  auth_type : String
  ssh_password : Option String
  ssh_key_path : Option String
  forward_type : String
  local_port : Option Nat
  target_host : Option String
  target_port : Option Nat
  container_name : Option String
  container_port : Option Nat
deriving DecidableEq

/-- model.rs enum TunnelAuth. -/
inductive TunnelAuth
  | Password (secret : String)
  | Key (path : String)
deriving DecidableEq

/-- model.rs impl TryFrom for TunnelAuth (lines 16-40). -/
def TunnelAuth.try_from (value : TunnelModel) : Except String TunnelAuth :=
  match value.auth_type with
  | "password" =>
    match value.ssh_password with
    | some password => .ok (.Password password)
    | none => .error "Password not provided for password authentication"
  | "key" =>
    match value.ssh_key_path with
    | some key_path => .ok (.Key key_path)
    | none => .error "Key path not provided for key authentication"
  | other => .error ("Invalid auth type: " ++ other)

/-- model.rs struct SshConnectConfig. -/
structure SshConnectConfig where
  ssh_host : String
  ssh_port : Nat
  ssh_user : String
  auth : TunnelAuth
deriving DecidableEq

/-- model.rs impl TryFrom for SshConnectConfig (lines 108-122). -/
def SshConnectConfig.try_from (db_config : TunnelModel) : Except String SshConnectConfig :=
  match TunnelAuth.try_from db_config with
  | .error e => .error e
  | .ok auth =>
    .ok { ssh_host := db_config.ssh_host, ssh_port := db_config.ssh_port,
          ssh_user := db_config.ssh_username, auth := auth }

/-- model.rs struct SshForwardConfig. -/
structure SshForwardConfig where
  local_host : String
  local_port : Nat
  remote_host : String
  remote_port : Nat
deriving DecidableEq

/-- model.rs impl TryFrom for SshForwardConfig (lines 132-147).  The source
unwraps the three Option fields; the unwrap-on-None panic is encoded as an
error value (no claim exercises that path). -/
def SshForwardConfig.try_from (db_config : TunnelModel) : Except String SshForwardConfig :=
  if db_config.forward_type = "container" then .error "type error"
  else
    match db_config.local_port, db_config.target_host, db_config.target_port with
    | some lp, some th, some tp =>
      .ok { local_host := "127.0.0.1", local_port := lp, remote_host := th, remote_port := tp }
    | _, _, _ => .error "panicked on unwrap of a None forwarding field"

/-- model.rs enum TunnelState; Running carries the ping latency Duration
(milliseconds here). -/
inductive TunnelState
  | Stopped
  | Starting
  | Running (latency : Nat)
  | Stopping
  | Error (msg : String)
deriving DecidableEq

/-- model.rs enum SSHStatus. -/
inductive SSHStatus
  | Healthy (latency : Nat)
  | Unstable (reason : String)
  | Disconnected
deriving DecidableEq

/-- model.rs impl From for TunnelState from SSHStatus (lines 159-167). -/
def TunnelState.from_status : SSHStatus → TunnelState
  | .Healthy latency => .Running latency
  | .Unstable reason => .Error reason
  | .Disconnected => .Stopped

/-- model.rs struct Traffic; u128 counters modelled as Nat (the counters are
fed u64-bounded deltas, so 128-bit overflow is unreachable). -/
structure Traffic where
  send_bytes : Nat
  recv_bytes : Nat
deriving DecidableEq

/-- model.rs Traffic::append_traffic (lines 189-192). -/
def Traffic.append_traffic (t : Traffic) (send_bytes recv_bytes : Nat) : Traffic :=
  { send_bytes := t.send_bytes + send_bytes, recv_bytes := t.recv_bytes + recv_bytes }

/-- model.rs Traffic::set (lines 194-197). -/
def Traffic.set (_t : Traffic) (send_bytes recv_bytes : Nat) : Traffic :=
  { send_bytes := send_bytes, recv_bytes := recv_bytes }

/-- model.rs struct SSHEvent. -/
structure SSHEvent where
  ssh_status : SSHStatus
  traffic : Traffic
deriving DecidableEq

/-- model.rs enum TunnelCommand. -/
inductive TunnelCommand
  | Start
  | Stop
  | Remove
deriving DecidableEq

/-! ### TrafficCounter (model.rs lines 229-289)

The AsyncRead/AsyncWrite wrapper is modelled by the effect of each poll
method on the wrapped AtomicU64 counter.  fetch_add on AtomicU64 wraps,
hence the explicit mod 2^64. -/

/-- Modulus of the AtomicU64 counter. -/
def pow64 : Nat := 2 ^ 64

/-- AtomicU64::fetch_add (wrapping). -/
def fetch_add (count n : Nat) : Nat := (count + n) % pow64

/-- Rust std::task::Poll. -/
inductive Poll (α : Type)
  | ready (val : α)
  | pending

/-- model.rs TrafficCounter poll_read (lines 243-260): the counter grows by
the number of bytes the inner poll_read appended to the buffer
(after - before), added only when the buffer actually grew. -/
def traffic_counter_poll_read (count before after : Nat) : Nat :=
  if before < after then fetch_add count (after - before) else count

/-- model.rs TrafficCounter poll_write (lines 262-274): on Ready(Ok(size)) the
counter grows by size, the number of bytes the inner writer accepted. -/
def traffic_counter_poll_write (count : Nat) (poll : Poll (Except String Nat)) : Nat :=
  match poll with
  | .ready (.ok size) => fetch_add count size
  | _ => count

/-- model.rs TrafficCounter poll_flush (lines 276-281): forwarded to the inner
stream unchanged. -/
def traffic_counter_poll_flush (inner : Poll (Except String Unit)) : Poll (Except String Unit) :=
  inner

/-- model.rs TrafficCounter poll_shutdown (lines 283-288): forwarded to the
inner stream unchanged. -/
def traffic_counter_poll_shutdown (inner : Poll (Except String Unit)) :
    Poll (Except String Unit) :=
  inner

/-! ### Remote command execution (ssh.rs Ssh::exec_cmd, lines 82-155)

exec_cmd runs a select loop between `sleep(timeout)` and `channel.wait()`.
The sleep future is recreated on every loop iteration, so the timeout bounds
the delay until the NEXT channel message, not the total running time.  The
channel traffic is modelled as a list of messages, each tagged with the delay
since the previous one, followed by the channel close (msg = None) after a
final delay. -/

/-- russh ChannelMsg, restricted to the constructors exec_cmd inspects. -/
inductive ChannelMsg
  | data (payload : String)
  | extendedData (payload : String) (ext : Nat)
  | exitStatus (code : Nat)
  | eof
  | other

/-- One received channel message together with the delay (seconds) since the
previous receive. -/
structure TimedMsg where
  delay : Nat
  msg : ChannelMsg

/-- Whether some inter-message delay (or the final delay before close)
reaches the timeout, i.e. whether the recreated sleep future fires first. -/
def gap_hits (t : Nat) : List TimedMsg → Nat → Bool
  | [], closeDelay => decide (t ≤ closeDelay)
  | m :: rest, closeDelay => decide (t ≤ m.delay) || gap_hits t rest closeDelay

/-- stdout accumulated by the exec loop (ChannelMsg::Data arms). -/
def collect_stdout (acc : String) : List TimedMsg → String
  | [] => acc
  | m :: rest =>
    collect_stdout (match m.msg with | .data s => acc ++ s | _ => acc) rest

/-- stderr accumulated by the exec loop (ChannelMsg::ExtendedData with
ext == 1). -/
def collect_stderr (acc : String) : List TimedMsg → String
  | [] => acc
  | m :: rest =>
    collect_stderr
      (match m.msg with
       | .extendedData s ext => if ext = 1 then acc ++ s else acc
       | _ => acc) rest

/-- exit status captured by the exec loop (last ChannelMsg::ExitStatus,
initially 0). -/
def last_exit_status (acc : Nat) : List TimedMsg → Nat
  | [] => acc
  | m :: rest =>
    last_exit_status (match m.msg with | .exitStatus code => code | _ => acc) rest

/-- The message loop of ssh.rs Ssh::exec_cmd (lines 95-126): either the
timeout branch fires (error, channel closed by the caller) or the loop runs to
channel close with accumulated stdout, stderr and exit status. -/
def exec_loop (t : Nat) (msgs : List TimedMsg) (closeDelay : Nat)
    (stdout stderr : String) (exit_status : Nat) :
    Except String (String × String × Nat) :=
  match msgs with
  | [] =>
    if t ≤ closeDelay then .error "Command execution timed out"
    else .ok (stdout, stderr, exit_status)
  | m :: rest =>
    if t ≤ m.delay then .error "Command execution timed out"
    else
      match m.msg with
      | .data s => exec_loop t rest closeDelay (stdout ++ s) stderr exit_status
      | .extendedData s ext =>
        if ext = 1 then exec_loop t rest closeDelay stdout (stderr ++ s) exit_status
        else exec_loop t rest closeDelay stdout stderr exit_status
      | .exitStatus code => exec_loop t rest closeDelay stdout stderr code
      | .eof => exec_loop t rest closeDelay stdout stderr exit_status
      | .other => exec_loop t rest closeDelay stdout stderr exit_status

/-- Result of an exec_cmd call: whether the timeout branch closed the channel
early, and the Result value (Err message, or Ok(Some output)). -/
structure ExecOutcome (α : Type) where
  channelClosedEarly : Bool
  result : Except String (Option α)

/-- ssh.rs Ssh::exec_cmd (lines 82-155).  After the loop: non-zero exit
status yields Err carrying stderr; otherwise parse_output is applied and its
None is converted by .context into Err "Failed to parse command output"
(so Ok(None) is never produced). -/
def exec_cmd {α : Type} (parse : String → Option α) (t : Nat)
    (msgs : List TimedMsg) (closeDelay : Nat) : ExecOutcome α :=
  match exec_loop t msgs closeDelay "" "" 0 with
  | .error e => { channelClosedEarly := true, result := .error e }
  | .ok (stdout, stderr, exit_status) =>
    if exit_status ≠ 0 then
      { channelClosedEarly := false,
        result := .error ("Command failed (exit code " ++ toString exit_status ++ "): "
                          ++ stderr) }
    else
      match parse stdout with
      | none => { channelClosedEarly := false, result := .error "Failed to parse command output" }
      | some r => { channelClosedEarly := false, result := .ok (some r) }

/-- Rust str::trim (whitespace stripped from both ends), modelled over the
character list. -/
def str_trim (s : String) : String :=
  String.mk (((s.data.dropWhile Char.isWhitespace).reverse.dropWhile Char.isWhitespace).reverse)

/-- remote_cmd.rs GetContainerAddrCmd::parse_output (lines 114-121): trim the
output; empty means the container IP was not found (None). -/
def GetContainerAddrCmd.parse_output (output : String) : Option String :=
  let ip := str_trim output
  if ip.isEmpty then none else some ip

/-! ### Health monitor (ssh.rs Ssh::spawn_health_monitor, lines 237-275)

One tick of the 5-second interval loop.  The ping is raced against
`timeout(Duration::from_secs(5), session.send_ping())`; the ping attempt is
modelled by its elapsed time (milliseconds) and whether it returned Ok. -/

/-- Ping timeout of the monitor, milliseconds (ssh.rs line 258). -/
def ping_timeout_ms : Nat := 5000

/-- What one monitor tick does: statuses published on the event channel (in
order), whether the shutdown token was cancelled, and whether the monitor
task breaks out of its loop. -/
structure MonitorTickResult where
  published : List SSHStatus
  cancelled : Bool
  exits : Bool
deriving DecidableEq

/-- One tick of ssh.rs spawn_health_monitor (lines 249-270). -/
def monitor_tick (closedBefore : Bool) (pingElapsed : Nat) (pingOk : Bool)
    (closedAfter : Bool) : MonitorTickResult :=
  if closedBefore then
    { published := [.Disconnected], cancelled := true, exits := true }
  else if pingElapsed < ping_timeout_ms ∧ pingOk = true then
    { published := [.Healthy pingElapsed], cancelled := false, exits := false }
  else if closedAfter then
    { published := [.Unstable "Timeout/Err", .Disconnected], cancelled := true, exits := true }
  else
    { published := [.Unstable "Timeout/Err"], cancelled := false, exits := false }

/-! ### Traffic reporting (ssh.rs Ssh::report_traffic, lines 378-400)

Each connection task keeps last_tx/last_rx and, once a second and at task
exit, appends the saturating deltas of the shared AtomicU64 counters into the
Traffic of the watch-channel SSHEvent. -/

/-- The mutable state of a report_traffic caller: its last seen counter
values and the event Traffic it appends into. -/
structure ReportState where
  last_tx : Nat
  last_rx : Nat
  event : Traffic
deriving DecidableEq

/-- ssh.rs Ssh::report_traffic (lines 378-400); Nat subtraction is exactly
u64::saturating_sub. -/
def report_traffic (current_tx current_rx : Nat) (st : ReportState) : ReportState :=
  let delta_tx := current_tx - st.last_tx
  let delta_rx := current_rx - st.last_rx
  if 0 < delta_tx ∨ 0 < delta_rx then
    { last_tx := current_tx, last_rx := current_rx,
      event := st.event.append_traffic delta_tx delta_rx }
  else st

/-- The successive event-Traffic values produced by a sequence of counter
observations (the per-second ticks plus the final report of
spawn_connection_handler). -/
def traffic_trace (st : ReportState) : List (Nat × Nat) → List Traffic
  | [] => []
  | r :: rs =>
    let st2 := report_traffic r.1 r.2 st
    st2.event :: traffic_trace st2 rs

/-- The Traffic stored into successive TunnelMetric snapshots by the actor
metrics task (actor.rs lines 186-192: s.traffic.set(event.send, event.recv)
for each observed event). -/
def metric_snapshots (m : Traffic) (st : ReportState) (readings : List (Nat × Nat)) :
    List Traffic :=
  (traffic_trace st readings).map (fun e => m.set e.send_bytes e.recv_bytes)

/-- Componentwise order on Traffic. -/
def traffic_le (a b : Traffic) : Prop :=
  a.send_bytes ≤ b.send_bytes ∧ a.recv_bytes ≤ b.recv_bytes

/-! ### Tunnel actor (actor.rs)

The actor is one long-lived task; its inbox commands and the events consumed
by its spawned metrics task are serialized into a single input stream. -/

/-- Environment of one Start attempt: the outcome of Ssh::init, the channel
messages of the container-IP exec call (docker mode), and the outcome of the
TcpListener::bind inside Ssh::ssh_forward. -/
structure StartEnv where
  ssh_init : Except String Unit
  exec_msgs : List TimedMsg
  exec_close : Nat
  bind : Except String Unit

/-- Actor-side state: the latest published TunnelState and Traffic of the
watch-channel TunnelMetric, plus whether self.ssh and self.running_task are
Some. -/
structure ActorState where
  tunnel_state : TunnelState
  traffic : Traffic
  sshActive : Bool
  taskRunning : Bool

/-- Initial actor state: watch::channel(TunnelMetric::default()), no ssh, no
running task. -/
def ActorState.initial : ActorState :=
  { tunnel_state := .Stopped, traffic := { send_bytes := 0, recv_bytes := 0 },
    sshActive := false, taskRunning := false }

/-- Result of handle_start: the new actor state, the TunnelState values
published (in order), and the SshForwardConfig passed to TcpListener::bind
when binding was reached (none = the Start attempt never tried to bind). -/
structure StartStepResult where
  state : ActorState
  published : List TunnelState
  bindAttempt : Option SshForwardConfig

/-- actor.rs TunnelActor::handle_start (lines 75-198).  Steps: publish
Starting; SshConnectConfig::try_from; Ssh::init; in docker mode resolve the
container IP with GetContainerAddrCmd and a 10 s timeout and build the
forward config with local_port.unwrap_or(0) and container_port.unwrap_or(80),
otherwise SshForwardConfig::try_from; then Ssh::ssh_forward (which binds the
listener first); on success the metrics task is spawned. -/
def handle_start (config : TunnelModel) (env : StartEnv) (s : ActorState) : StartStepResult :=
  let s0 : ActorState := { s with tunnel_state := .Starting }
  match SshConnectConfig.try_from config with
  | .error e =>
    { state := { s0 with tunnel_state := .Error e },
      published := [.Starting, .Error e], bindAttempt := none }
  | .ok _ =>
    match env.ssh_init with
    | .error e =>
      { state := { s0 with tunnel_state := .Error e },
        published := [.Starting, .Error e], bindAttempt := none }
    | .ok _ =>
      let forward_res : Except String SshForwardConfig :=
        if config.mode = "docker" then
          match config.container_name with
          | none => .error "Container name missing"
          | some _name =>
            match (exec_cmd GetContainerAddrCmd.parse_output 10
                     env.exec_msgs env.exec_close).result with
            | .ok (some ip) =>
              .ok { local_host := "127.0.0.1",
                    local_port := config.local_port.getD 0,
                    remote_host := ip,
                    remote_port := config.container_port.getD 80 }
            | .ok none => .error "Container IP not found"
            | .error e => .error e
        else SshForwardConfig.try_from config
      match forward_res with
      | .error e =>
        { state := { s0 with tunnel_state := .Error e },
          published := [.Starting, .Error e], bindAttempt := none }
      | .ok forward_config =>
        match env.bind with
        | .error e =>
          { state := { s0 with tunnel_state := .Error e },
            published := [.Starting, .Error e], bindAttempt := some forward_config }
        | .ok _ =>
          { state := { s0 with sshActive := true, taskRunning := true },
            published := [.Starting], bindAttempt := some forward_config }

/-- actor.rs TunnelActor::handle_stop (lines 200-218): publish Stopping,
shut the ssh down and abort the metrics task unconditionally, publish
Stopped. -/
def handle_stop (s : ActorState) : ActorState × List TunnelState :=
  ({ s with tunnel_state := .Stopped, sshActive := false, taskRunning := false },
   [.Stopping, .Stopped])

/-- One input consumed by the actor select loop: an inbox command (Start
carrying its environment), an SSHEvent observed by the metrics task, the
event channel closing under the metrics task, or the running task finishing
(the second select branch of TunnelActor::run). -/
inductive ActorInput
  | start (env : StartEnv)
  | stop
  | remove
  | sshEvent (e : SSHEvent)
  | channelClosed
  | taskExit

/-- One transition of the actor (actor.rs TunnelActor::run, lines 34-73,
plus the metrics task spawned at lines 178-195): returns the new state and
the TunnelState values published on the outbox. -/
def actorStep (config : TunnelModel) (s : ActorState) :
    ActorInput → ActorState × List TunnelState
  | .start env =>
    let r := handle_start config env s
    (r.state, r.published)
  | .stop => handle_stop s
  | .remove => handle_stop s
  | .sshEvent e =>
    if s.taskRunning then
      ({ s with tunnel_state := TunnelState.from_status e.ssh_status,
                traffic := s.traffic.set e.traffic.send_bytes e.traffic.recv_bytes },
       [TunnelState.from_status e.ssh_status])
    else (s, [])
  | .channelClosed =>
    if s.taskRunning then
      ({ s with tunnel_state := .Error "Channel closed" }, [.Error "Channel closed"])
    else (s, [])
  | .taskExit =>
    if s.taskRunning then
      ({ s with tunnel_state := .Error "Connection Dropped",
                sshActive := false, taskRunning := false },
       [.Error "Connection Dropped"])
    else (s, [])

/-- The TunnelState values published while the actor consumes a list of
inputs; Remove performs the stop transition and then the actor exits
(remaining inputs are discarded). -/
def actorRun (config : TunnelModel) (s : ActorState) : List ActorInput → List TunnelState
  | [] => []
  | i :: rest =>
    let r := actorStep config s i
    match i with
    | .remove => r.2
    | _ => r.2 ++ actorRun config r.1 rest

/-- The transition table of spec section 4.5 as the claim C1 states it:
Stopped to Starting, Starting to Running or Error, Running to Stopping or
Error, Stopping to Stopped. -/
def spec_transition : TunnelState → TunnelState → Bool
  | .Stopped, .Starting => true
  | .Starting, .Running _ => true
  | .Starting, .Error _ => true
  | .Running _, .Stopping => true
  | .Running _, .Error _ => true
  | .Stopping, .Stopped => true
  | _, _ => false

/-- All consecutive pairs of a published-state sequence satisfy a table. -/
def chain_ok (table : TunnelState → TunnelState → Bool) : List TunnelState → Bool
  | a :: b :: rest => table a b && chain_ok table (b :: rest)
  | _ => true

/-- The transitions the code actually publishes, labelled by the input that
produced them: Start publishes Starting from any state and Error on a failed
start; Stop and Remove publish Stopping and Stopped from any state; while
the metrics task runs, an SSHEvent publishes From(ssh_status), the event
channel closing publishes Error Channel closed, and the running task ending
publishes Error Connection Dropped. -/
inductive AllowedPub : ActorState → ActorInput → TunnelState → Prop
  | startStarting (s : ActorState) (env : StartEnv) : AllowedPub s (.start env) .Starting
  | startError (s : ActorState) (env : StartEnv) (m : String) :
      AllowedPub s (.start env) (.Error m)
  | stopStopping (s : ActorState) : AllowedPub s .stop .Stopping
  | stopStopped (s : ActorState) : AllowedPub s .stop .Stopped
  | removeStopping (s : ActorState) : AllowedPub s .remove .Stopping
  | removeStopped (s : ActorState) : AllowedPub s .remove .Stopped
  | event (s : ActorState) (e : SSHEvent) (h : s.taskRunning = true) :
      AllowedPub s (.sshEvent e) (TunnelState.from_status e.ssh_status)
  | chanClosed (s : ActorState) (h : s.taskRunning = true) :
      AllowedPub s .channelClosed (.Error "Channel closed")
  | taskExit (s : ActorState) (h : s.taskRunning = true) :
      AllowedPub s .taskExit (.Error "Connection Dropped")

/-! ### Tunnel manager (manager.rs TunnelManager, lines 99-112)

The registry maps tunnel ids to handles; a handle is modelled by whether its
actor is alive (the mpsc send succeeds) and the inbox contents.  The Ok
result carries the handle after the send, making the delivered command
visible. -/

/-- Manager-side handle of one tunnel actor. -/
structure ManagerTunnelHandle where
  alive : Bool
  inbox : List TunnelCommand
deriving DecidableEq

/-- mpsc::Sender::send on the handle inbox: appends when the actor is alive,
fails when the receiver is gone. -/
def cmd_send (h : ManagerTunnelHandle) (cmd : TunnelCommand) : Option ManagerTunnelHandle :=
  if h.alive then some { h with inbox := h.inbox ++ [cmd] } else none

/-- manager.rs TunnelManager::send_command_to_tunnel (lines 99-112). -/
def send_command_to_tunnel (tunnels : List (String × ManagerTunnelHandle)) (id : String)
    (cmd : TunnelCommand) : Except String ManagerTunnelHandle :=
  match tunnels.lookup id with
  | some handle =>
    match cmd_send handle cmd with
    | some h2 => .ok h2
    | none => .error "Actor died"
  | none => .error ("Tunnel with id " ++ id ++ " not found")

/-- manager.rs TunnelManager::start_tunnel (lines 57-59). -/
def start_tunnel (tunnels : List (String × ManagerTunnelHandle)) (id : String) :
    Except String ManagerTunnelHandle :=
  send_command_to_tunnel tunnels id .Start

/-- manager.rs TunnelManager::stop_tunnel (lines 61-68). -/
def stop_tunnel (tunnels : List (String × ManagerTunnelHandle)) (id : String) :
    Except String ManagerTunnelHandle :=
  send_command_to_tunnel tunnels id .Stop

/-- manager.rs TunnelManager::remove_tunnel (lines 70-73). -/
def remove_tunnel (tunnels : List (String × ManagerTunnelHandle)) (id : String) :
    Except String ManagerTunnelHandle :=
  send_command_to_tunnel tunnels id .Remove

/-- A sample standard-mode configuration used by concrete counterexamples and
witnesses. -/
def sample_config : TunnelModel :=
  { id := "t1", name := "demo", mode := "standard",
    ssh_host := "203.0.113.7", ssh_port := 22, ssh_username := "alice",
    auth_type := "password", ssh_password := some "pw", ssh_key_path := none,
    forward_type := "direct",
    local_port := some 15432, target_host := some "10.0.0.5", target_port := some 5432,
    container_name := none, container_port := none }

/-- A sample all-succeeding Start environment. -/
def sample_env : StartEnv :=
  { ssh_init := .ok (), exec_msgs := [], exec_close := 0, bind := .ok () }

/-! ### Supporting lemmas -/

/-- report_traffic never shrinks the event Traffic. -/
theorem report_traffic_event_le (a b : Nat) (st : ReportState) :
    traffic_le st.event (report_traffic a b st).event := by
  unfold report_traffic
  dsimp only
  split
  · exact ⟨Nat.le_add_right _ _, Nat.le_add_right _ _⟩
  · exact ⟨le_refl _, le_refl _⟩

/-- If some inter-message gap (or the final close delay) reaches the timeout,
the exec loop returns the timeout error. -/
theorem exec_loop_timeout (t : Nat) (msgs : List TimedMsg) (closeDelay : Nat)
    (stdout stderr : String) (es : Nat) (h : gap_hits t msgs closeDelay = true) :
    exec_loop t msgs closeDelay stdout stderr es = .error "Command execution timed out" := by
  induction msgs generalizing stdout stderr es with
  | nil =>
    rw [gap_hits] at h
    rw [exec_loop, if_pos (of_decide_eq_true h)]
  | cons m rest ih =>
    obtain ⟨d, mm⟩ := m
    rw [gap_hits] at h
    by_cases hd : t ≤ d
    · rw [exec_loop, if_pos hd]
    · have h2 : gap_hits t rest closeDelay = true := by
        rcases Bool.or_eq_true_iff.mp h with h1 | h1
        · exact absurd (of_decide_eq_true h1) hd
        · exact h1
      rw [exec_loop, if_neg hd]
      cases mm with
      | data s => exact ih _ _ _ h2
      | extendedData s ext =>
        dsimp only
        by_cases hx : ext = 1
        · rw [if_pos hx]; exact ih _ _ _ h2
        · rw [if_neg hx]; exact ih _ _ _ h2
      | exitStatus code => exact ih _ _ _ h2
      | eof => exact ih _ _ _ h2
      | other => exact ih _ _ _ h2

/-- If no gap reaches the timeout, the exec loop runs to channel close and
returns the accumulated stdout, stderr and last exit status. -/
theorem exec_loop_ok (t : Nat) (msgs : List TimedMsg) (closeDelay : Nat)
    (stdout stderr : String) (es : Nat) (h : gap_hits t msgs closeDelay = false) :
    exec_loop t msgs closeDelay stdout stderr es
      = .ok (collect_stdout stdout msgs, collect_stderr stderr msgs, last_exit_status es msgs) := by
  induction msgs generalizing stdout stderr es with
  | nil =>
    rw [gap_hits] at h
    rw [exec_loop, if_neg (of_decide_eq_false h)]
    rfl
  | cons m rest ih =>
    obtain ⟨d, mm⟩ := m
    rw [gap_hits, Bool.or_eq_false_iff] at h
    have hd : ¬ t ≤ d := of_decide_eq_false h.1
    rw [exec_loop, if_neg hd]
    cases mm with
    | data s =>
      simp only [collect_stdout, collect_stderr, last_exit_status]
      exact ih _ _ _ h.2
    | extendedData s ext =>
      dsimp only
      simp only [collect_stdout, collect_stderr, last_exit_status]
      by_cases hx : ext = 1
      · rw [if_pos hx, if_pos hx]
        exact ih _ _ _ h.2
      · rw [if_neg hx, if_neg hx]
        exact ih _ _ _ h.2
    | exitStatus code =>
      simp only [collect_stdout, collect_stderr, last_exit_status]
      exact ih _ _ _ h.2
    | eof =>
      simp only [collect_stdout, collect_stderr, last_exit_status]
      exact ih _ _ _ h.2
    | other =>
      simp only [collect_stdout, collect_stderr, last_exit_status]
      exact ih _ _ _ h.2

/-- exec_cmd never returns Ok(None): parse_output returning None is converted
into Err by .context, which makes the Ok(None) arm of
TunnelActor::handle_start (actor.rs line 121) unreachable. -/
theorem exec_cmd_never_ok_none {α : Type} (parse : String → Option α) (t : Nat)
    (msgs : List TimedMsg) (closeDelay : Nat) :
    (exec_cmd parse t msgs closeDelay).result ≠ .ok none := by
  unfold exec_cmd
  split
  · simp
  · split
    · simp
    · split <;> simp

/-- handle_start publishes Starting, alone on success or followed by one
Error on any failure. -/
theorem handle_start_published (cfg : TunnelModel) (env : StartEnv) (s : ActorState) :
    (handle_start cfg env s).published = [.Starting]
    ∨ ∃ m, (handle_start cfg env s).published = [.Starting, .Error m] := by
  unfold handle_start
  dsimp only
  split
  · exact .inr ⟨_, rfl⟩
  · split
    · exact .inr ⟨_, rfl⟩
    · split
      · exact .inr ⟨_, rfl⟩
      · split
        · exact .inr ⟨_, rfl⟩
        · exact .inl rfl

/-! ### Claim theorems -/

/-- Claim C8: a successful TrafficCounter read adds exactly the bytes filled
to the wrapped atomic counter, a successful write adds exactly the bytes the
underlying writer accepted, and flush and shutdown are forwarded to the inner
stream unchanged (under no 64-bit wrap-around). -/
theorem claim_C8_traffic_counter (count before after size : Nat)
    (h1 : before ≤ after) (h2 : count + (after - before) < pow64)
    (h3 : count + size < pow64) :
    traffic_counter_poll_read count before after = count + (after - before)
    ∧ traffic_counter_poll_write count (.ready (.ok size)) = count + size
    ∧ (∀ p, traffic_counter_poll_flush p = p)
    ∧ (∀ p, traffic_counter_poll_shutdown p = p) := by
  refine ⟨?_, ?_, fun p => rfl, fun p => rfl⟩
  · unfold traffic_counter_poll_read fetch_add
    rcases Nat.lt_or_ge before after with hlt | hge
    · rw [if_pos hlt, Nat.mod_eq_of_lt h2]
    · have h0 : after - before = 0 := Nat.sub_eq_zero_of_le hge
      rw [if_neg (by omega), h0]
      omega
  · unfold traffic_counter_poll_write fetch_add
    exact Nat.mod_eq_of_lt h3

/-- Witness for C8 at concrete counter values. -/
theorem claim_C8_witness :
    traffic_counter_poll_read 10 2 7 = 15
    ∧ traffic_counter_poll_write 10 (.ready (.ok 3)) = 13 := by
  have h := claim_C8_traffic_counter 10 2 7 3 (by decide) (by decide) (by decide)
  exact ⟨h.1, h.2.1⟩

/-- Claim C9: the manager command path fails with the not-found error when
the id has no handle, fails with the actor-dead error when the inbox send
fails, and otherwise appends the command to the actor inbox and succeeds;
start, stop and remove deliver the corresponding commands. -/
theorem claim_C9_manager (tunnels : List (String × ManagerTunnelHandle)) (id : String)
    (cmd : TunnelCommand) :
    (tunnels.lookup id = none →
      send_command_to_tunnel tunnels id cmd
        = .error ("Tunnel with id " ++ id ++ " not found"))
    ∧ (∀ h, tunnels.lookup id = some h → h.alive = false →
        send_command_to_tunnel tunnels id cmd = .error "Actor died")
    ∧ (∀ h, tunnels.lookup id = some h → h.alive = true →
        send_command_to_tunnel tunnels id cmd = .ok { h with inbox := h.inbox ++ [cmd] })
    ∧ start_tunnel tunnels id = send_command_to_tunnel tunnels id .Start
    ∧ stop_tunnel tunnels id = send_command_to_tunnel tunnels id .Stop
    ∧ remove_tunnel tunnels id = send_command_to_tunnel tunnels id .Remove := by
  refine ⟨?_, ?_, ?_, rfl, rfl, rfl⟩
  · intro hnone
    simp [send_command_to_tunnel, hnone]
  · intro h hsome hdead
    simp [send_command_to_tunnel, hsome, cmd_send, hdead]
  · intro h hsome halive
    simp [send_command_to_tunnel, hsome, cmd_send, halive]

/-- Witness for C9 on a concrete registry. -/
theorem claim_C9_witness :
    send_command_to_tunnel [("t1", ⟨true, []⟩)] "t1" .Start = .ok ⟨true, [.Start]⟩
    ∧ send_command_to_tunnel [("t1", ⟨true, []⟩)] "t2" .Stop
        = .error ("Tunnel with id " ++ "t2" ++ " not found")
    ∧ send_command_to_tunnel [("t3", ⟨false, []⟩)] "t3" .Stop = .error "Actor died" := by
  refine ⟨?_, ?_, ?_⟩
  · exact (claim_C9_manager [("t1", ⟨true, []⟩)] "t1" .Start).2.2.1 ⟨true, []⟩ rfl rfl
  · exact (claim_C9_manager [("t1", ⟨true, []⟩)] "t2" .Stop).1 rfl
  · exact (claim_C9_manager [("t3", ⟨false, []⟩)] "t3" .Stop).2.1 ⟨false, []⟩ rfl rfl

/-- Claim C6: one monitor tick publishes Disconnected, cancels the token and
exits when the session is closed; otherwise a ping answered within the 5 s
bound publishes Healthy with the elapsed latency, and a timed-out or failed
ping publishes Unstable and, when the session is then observed closed,
Disconnected with cancellation and exit. -/
theorem claim_C6_monitor (closedBefore : Bool) (pingElapsed : Nat) (pingOk : Bool)
    (closedAfter : Bool) :
    (closedBefore = true →
      monitor_tick closedBefore pingElapsed pingOk closedAfter
        = { published := [.Disconnected], cancelled := true, exits := true })
    ∧ (pingElapsed < ping_timeout_ms → pingOk = true →
      monitor_tick false pingElapsed pingOk closedAfter
        = { published := [.Healthy pingElapsed], cancelled := false, exits := false })
    ∧ (ping_timeout_ms ≤ pingElapsed ∨ pingOk = false →
      monitor_tick false pingElapsed pingOk true
        = { published := [.Unstable "Timeout/Err", .Disconnected],
            cancelled := true, exits := true })
    ∧ (ping_timeout_ms ≤ pingElapsed ∨ pingOk = false →
      monitor_tick false pingElapsed pingOk false
        = { published := [.Unstable "Timeout/Err"], cancelled := false, exits := false }) := by
  have hcase : ∀ hp : ping_timeout_ms ≤ pingElapsed ∨ pingOk = false,
      ¬ (pingElapsed < ping_timeout_ms ∧ pingOk = true) := by
    rintro hp ⟨hlt, hok⟩
    rcases hp with hp | hp
    · omega
    · rw [hok] at hp; exact Bool.noConfusion hp
  refine ⟨?_, ?_, ?_, ?_⟩
  · intro h; subst h; rfl
  · intro h1 h2
    unfold monitor_tick
    rw [if_neg (by simp), if_pos ⟨h1, h2⟩]
  · intro hp
    unfold monitor_tick
    rw [if_neg (by simp), if_neg (hcase hp), if_pos rfl]
  · intro hp
    unfold monitor_tick
    rw [if_neg (by simp), if_neg (hcase hp), if_neg (by simp)]

/-- Witness for C6 at the four concrete tick situations. -/
theorem claim_C6_witness :
    monitor_tick true 100 true false
      = { published := [.Disconnected], cancelled := true, exits := true }
    ∧ monitor_tick false 42 true false
      = { published := [.Healthy 42], cancelled := false, exits := false }
    ∧ monitor_tick false 5000 true true
      = { published := [.Unstable "Timeout/Err", .Disconnected],
          cancelled := true, exits := true }
    ∧ monitor_tick false 9999 false false
      = { published := [.Unstable "Timeout/Err"], cancelled := false, exits := false } := by
  refine ⟨?_, ?_, ?_, ?_⟩
  · exact (claim_C6_monitor true 100 true false).1 rfl
  · exact (claim_C6_monitor false 42 true false).2.1 (by decide) rfl
  · exact (claim_C6_monitor false 5000 true true).2.2.1 (.inl (by decide))
  · exact (claim_C6_monitor false 9999 false false).2.2.2 (.inr rfl)

/-- Claim C7: within one Running span, the Traffic values visible in
successive TunnelMetric snapshots (the event Traffic values copied in by the
metrics task) are monotone non-decreasing in both components. -/
theorem claim_C7_monotone (st : ReportState) (readings : List (Nat × Nat)) (m : Traffic) :
    List.Chain' traffic_le (st.event :: traffic_trace st readings)
    ∧ metric_snapshots m st readings = traffic_trace st readings := by
  constructor
  · induction readings generalizing st with
    | nil => simp [traffic_trace]
    | cons r rs ih =>
      simp only [traffic_trace]
      exact List.chain'_cons.mpr ⟨report_traffic_event_le r.1 r.2 st, ih _⟩
  · unfold metric_snapshots
    have hid : (fun e : Traffic => m.set e.send_bytes e.recv_bytes) = id := by
      funext e; rfl
    rw [hid, List.map_id]

/-- Claim C5 counterexample: a command that keeps the channel busy runs for
20 time units against a timeout of 6 yet completes with Ok, because
exec_cmd recreates its sleep future on every loop iteration, so only the
delay until the next channel message is bounded. -/
theorem claim_C5_counterexample :
    6 < 5 + 5 + 5 + 5
    ∧ exec_cmd GetContainerAddrCmd.parse_output 6
        [⟨5, .data "x"⟩, ⟨5, .data "y"⟩, ⟨5, .exitStatus 0⟩] 5
      = { channelClosedEarly := false, result := .ok (some "xy") } :=
  ⟨by decide, rfl⟩

/-- Claim C5 amended: if the delay before some channel message (or the final
close) reaches the caller-supplied timeout, the channel is closed and the
call returns the timeout error; when no such delay occurs and the command
exits non-zero, the call returns an error carrying the command stderr. -/
theorem claim_C5_amended {α : Type} (parse : String → Option α) (t : Nat)
    (msgs : List TimedMsg) (closeDelay : Nat) :
    (gap_hits t msgs closeDelay = true →
      exec_cmd parse t msgs closeDelay
        = { channelClosedEarly := true, result := .error "Command execution timed out" })
    ∧ (gap_hits t msgs closeDelay = false → last_exit_status 0 msgs ≠ 0 →
      exec_cmd parse t msgs closeDelay
        = { channelClosedEarly := false,
            result := .error ("Command failed (exit code "
              ++ toString (last_exit_status 0 msgs) ++ "): " ++ collect_stderr "" msgs) }) := by
  constructor
  · intro h
    unfold exec_cmd
    rw [exec_loop_timeout t msgs closeDelay "" "" 0 h]
  · intro h hx
    unfold exec_cmd
    rw [exec_loop_ok t msgs closeDelay "" "" 0 h]
    simp only []
    rw [if_pos hx]

/-- Witness for the amended C5: a silent gap triggers the timeout error, and
a non-zero exit returns the stderr-carrying error. -/
theorem claim_C5_witness :
    exec_cmd GetContainerAddrCmd.parse_output 3 [⟨7, .data "x"⟩] 1
      = { channelClosedEarly := true, result := .error "Command execution timed out" }
    ∧ exec_cmd GetContainerAddrCmd.parse_output 9
        [⟨2, .extendedData "boom" 1⟩, ⟨2, .exitStatus 2⟩] 3
      = { channelClosedEarly := false,
          result := .error ("Command failed (exit code 2): boom") } := by
  constructor
  · exact (claim_C5_amended GetContainerAddrCmd.parse_output 3 [⟨7, .data "x"⟩] 1).1 rfl
  · exact (claim_C5_amended GetContainerAddrCmd.parse_output 9
      [⟨2, .extendedData "boom" 1⟩, ⟨2, .exitStatus 2⟩] 3).2 rfl (by decide)

/-- Claim C1 counterexample: delivering Stop to a freshly created (Stopped)
actor publishes Stopping and then Stopped, so the observable sequence
Stopped, Stopping, Stopped contains the transition Stopped to Stopping,
which the claimed table does not define. -/
theorem claim_C1_counterexample :
    chain_ok spec_transition
      (TunnelState.Stopped :: actorRun sample_config ActorState.initial [.stop]) = false := by
  rfl

/-- Claim C1 amended: every TunnelState the actor publishes is one of the
labelled transitions of the code table AllowedPub, which allows Starting
(and a failure Error) on Start from any state, Stopping then Stopped on
Stop or Remove from any state, and the event-driven publishes while the
metrics task runs; the source-state restrictions of the section 4.5 table do
not hold. -/
theorem claim_C1_amended (cfg : TunnelModel) (s : ActorState) (i : ActorInput)
    (t : TunnelState) (ht : t ∈ (actorStep cfg s i).2) : AllowedPub s i t := by
  cases i with
  | start env =>
    rcases handle_start_published cfg env s with h | ⟨m, h⟩
    · simp only [actorStep] at ht
      rw [h] at ht
      simp only [List.mem_singleton] at ht
      subst ht
      exact .startStarting s env
    · simp only [actorStep] at ht
      rw [h] at ht
      simp only [List.mem_cons, List.mem_singleton, List.not_mem_nil, or_false] at ht
      rcases ht with rfl | rfl
      · exact .startStarting s env
      · exact .startError s env m
  | stop =>
    simp only [actorStep, handle_stop, List.mem_cons, List.mem_singleton,
      List.not_mem_nil, or_false] at ht
    rcases ht with rfl | rfl
    · exact .stopStopping s
    · exact .stopStopped s
  | remove =>
    simp only [actorStep, handle_stop, List.mem_cons, List.mem_singleton,
      List.not_mem_nil, or_false] at ht
    rcases ht with rfl | rfl
    · exact .removeStopping s
    · exact .removeStopped s
  | sshEvent e =>
    cases htask : s.taskRunning with
    | false => simp [actorStep, htask] at ht
    | true =>
      simp [actorStep, htask] at ht
      subst ht
      exact .event s e htask
  | channelClosed =>
    cases htask : s.taskRunning with
    | false => simp [actorStep, htask] at ht
    | true =>
      simp [actorStep, htask] at ht
      subst ht
      exact .chanClosed s htask
  | taskExit =>
    cases htask : s.taskRunning with
    | false => simp [actorStep, htask] at ht
    | true =>
      simp [actorStep, htask] at ht
      subst ht
      exact .taskExit s htask

/-- Witness for the amended C1: the Stopping publish of a Stop in Stopped is
an allowed labelled transition. -/
theorem claim_C1_amended_witness : AllowedPub ActorState.initial .stop .Stopping :=
  claim_C1_amended sample_config ActorState.initial .stop .Stopping
    (by simp [actorStep, handle_stop])

/-- The container-mode configuration of the C2 failing input. -/
def docker_config : TunnelModel :=
  { sample_config with
    mode := "docker", forward_type := "container",
    container_name := some "web", container_port := some 80,
    local_port := some 18080, target_host := none, target_port := none }

/-- The C2 failing environment: Ssh::init succeeds and the remote docker
inspect replies a bare newline with exit status 0, so the trimmed output is
empty. -/
def docker_empty_env : StartEnv :=
  { ssh_init := .ok (), exec_msgs := [⟨1, .data "\n"⟩], exec_close := 1, bind := .ok () }

/-- Claim C2 (code bug): on container-mode Start with inspect output empty
after trimming, the code publishes Error Failed to parse command output, not
the Error Container IP not found of the unreachable Ok(None) arm, because
exec_cmd converts the None of parse_output into an error via .context; the
listener is indeed never bound. -/
theorem claim_C2_code_behavior :
    (handle_start docker_config docker_empty_env ActorState.initial).published
      = [.Starting, .Error "Failed to parse command output"]
    ∧ (handle_start docker_config docker_empty_env ActorState.initial).bindAttempt = none
    ∧ (handle_start docker_config docker_empty_env ActorState.initial).published
        ≠ [.Starting, .Error "Container IP not found"] := by
  refine ⟨rfl, rfl, ?_⟩
  decide

/-- Claim C3: after a ping timeout (Unstable published, then the session is
observed closed and Disconnected published), the actor maps the two health
statuses and the subsequent channel close and task exit to the lifecycle
publishes Error, Stopped, Error Channel closed, Error Connection Dropped: the
health stream passes through Unstable then Disconnected, and the lifecycle
ends in Error, in that order. -/
theorem claim_C3_order (cfg : TunnelModel) (s : ActorState) (t : Traffic)
    (h : s.taskRunning = true) :
    (monitor_tick false 5000 true true).published
      = [.Unstable "Timeout/Err", .Disconnected]
    ∧ actorRun cfg s
        (((monitor_tick false 5000 true true).published.map
            (fun st => ActorInput.sshEvent { ssh_status := st, traffic := t }))
          ++ [.channelClosed, .taskExit])
      = [.Error "Timeout/Err", .Stopped, .Error "Channel closed", .Error "Connection Dropped"]
    ∧ (actorRun cfg s
        (((monitor_tick false 5000 true true).published.map
            (fun st => ActorInput.sshEvent { ssh_status := st, traffic := t }))
          ++ [.channelClosed, .taskExit])).getLast?
        = some (.Error "Connection Dropped") := by
  have htr : actorRun cfg s
      (((monitor_tick false 5000 true true).published.map
          (fun st => ActorInput.sshEvent { ssh_status := st, traffic := t }))
        ++ [.channelClosed, .taskExit])
      = [.Error "Timeout/Err", .Stopped, .Error "Channel closed", .Error "Connection Dropped"] := by
    simp [monitor_tick, ping_timeout_ms, actorRun, actorStep, TunnelState.from_status, h]
  exact ⟨rfl, htr, by rw [htr]; rfl⟩

/-- Witness for C3 at a concrete Running actor state. -/
theorem claim_C3_witness :
    (monitor_tick false 5000 true true).published
      = [.Unstable "Timeout/Err", .Disconnected]
    ∧ actorRun sample_config
        { tunnel_state := .Running 3, traffic := { send_bytes := 0, recv_bytes := 0 },
          sshActive := true, taskRunning := true }
        (((monitor_tick false 5000 true true).published.map
            (fun st => ActorInput.sshEvent
              { ssh_status := st, traffic := { send_bytes := 0, recv_bytes := 0 } }))
          ++ [.channelClosed, .taskExit])
      = [.Error "Timeout/Err", .Stopped, .Error "Channel closed", .Error "Connection Dropped"] := by
  have h := claim_C3_order sample_config
    { tunnel_state := .Running 3, traffic := { send_bytes := 0, recv_bytes := 0 },
      sshActive := true, taskRunning := true }
    { send_bytes := 0, recv_bytes := 0 } rfl
  exact ⟨h.1, h.2.1⟩

/-- Claim C4 counterexample: delivering Start to an actor whose tunnel is
Running is not a no-op: the actor publishes Starting and its published
lifecycle state changes from Running to Starting (a new SSH session and
listener replace the old resources). -/
theorem claim_C4_counterexample :
    (actorStep sample_config
        { tunnel_state := .Running 5, traffic := { send_bytes := 0, recv_bytes := 0 },
          sshActive := true, taskRunning := true }
        (.start sample_env)).2 = [.Starting]
    ∧ (actorStep sample_config
        { tunnel_state := .Running 5, traffic := { send_bytes := 0, recv_bytes := 0 },
          sshActive := true, taskRunning := true }
        (.start sample_env)).1.tunnel_state = .Starting
    ∧ TunnelState.Starting ≠ .Running 5 := by
  exact ⟨rfl, rfl, by decide⟩

/-- Claim C4 amended: Start in Running re-runs the whole start sequence and
first publishes Starting (it is not a no-op), while Stop in Stopped leaves
the actor state unchanged but still publishes Stopping and then Stopped. -/
theorem claim_C4_amended (cfg : TunnelModel) (env : StartEnv) (s1 s2 : ActorState) (d : Nat)
    (_h1 : s1.tunnel_state = .Running d)
    (h2 : s2.tunnel_state = .Stopped) (h3 : s2.sshActive = false)
    (h4 : s2.taskRunning = false) :
    (actorStep cfg s1 (.start env)).2.head? = some .Starting
    ∧ actorStep cfg s2 .stop = (s2, [.Stopping, .Stopped]) := by
  constructor
  · rcases handle_start_published cfg env s1 with h | ⟨m, h⟩ <;> simp [actorStep, h]
  · cases s2 with
    | mk ts tr sa tk =>
      simp only [actorStep, handle_stop]
      simp_all

/-- Witness for the amended C4 at concrete states. -/
theorem claim_C4_witness :
    (actorStep sample_config
        { tunnel_state := .Running 7, traffic := { send_bytes := 0, recv_bytes := 0 },
          sshActive := true, taskRunning := true }
        (.start sample_env)).2.head? = some .Starting
    ∧ actorStep sample_config ActorState.initial .stop
        = (ActorState.initial, [.Stopping, .Stopped]) :=
  claim_C4_amended sample_config sample_env _ _ 7 rfl rfl rfl rfl

/-- Claim C10: in container mode with container_port absent the Start
forwards to remote port 80, and with local_port absent it binds local port 0,
instead of failing with a configuration error. -/
theorem claim_C10_defaults (cfg : TunnelModel) (env : StartEnv) (s : ActorState)
    (name ip : String) (cc : SshConnectConfig)
    (hmode : cfg.mode = "docker")
    (hname : cfg.container_name = some name)
    (hcport : cfg.container_port = none)
    (hlport : cfg.local_port = none)
    (hconn : SshConnectConfig.try_from cfg = .ok cc)
    (hinit : env.ssh_init = .ok ())
    (hexec : (exec_cmd GetContainerAddrCmd.parse_output 10
                env.exec_msgs env.exec_close).result = .ok (some ip)) :
    (handle_start cfg env s).bindAttempt
      = some { local_host := "127.0.0.1", local_port := 0,
               remote_host := ip, remote_port := 80 }
    ∧ (env.bind = .ok () → (handle_start cfg env s).published = [.Starting]) := by
  unfold handle_start
  rw [hconn, hinit]
  dsimp only
  simp only [hmode, hname, hexec, hcport, hlport, eq_self_iff_true, if_true]
  constructor
  · cases env.bind <;> rfl
  · intro hok
    rw [hok]

/-- Docker-mode configuration with both optional ports absent, for the C10
witness. -/
def docker_defaults_config : TunnelModel :=
  { docker_config with
    container_port := none, local_port := none }

/-- Environment whose docker inspect call answers an IP address, for the C10
witness. -/
def docker_ip_env : StartEnv :=
  { ssh_init := .ok (), exec_msgs := [⟨1, .data "172.17.0.3\n"⟩], exec_close := 1,
    bind := .ok () }

/-- Witness for C10: with container_port and local_port absent, the listener
bind is attempted at local port 0 toward remote port 80 and the Start
publishes no error. -/
theorem claim_C10_witness :
    (handle_start docker_defaults_config docker_ip_env ActorState.initial).bindAttempt
      = some { local_host := "127.0.0.1", local_port := 0,
               remote_host := "172.17.0.3", remote_port := 80 }
    ∧ (handle_start docker_defaults_config docker_ip_env ActorState.initial).published
      = [.Starting] := by
  have h := claim_C10_defaults docker_defaults_config docker_ip_env ActorState.initial
    "web" "172.17.0.3"
    { ssh_host := "203.0.113.7", ssh_port := 22, ssh_user := "alice",
      auth := .Password "pw" }
    rfl rfl rfl rfl rfl rfl rfl
  exact ⟨h.1, h.2 rfl⟩
